import Mathlib

set_option maxRecDepth 100000

/-!
Shallow embedding of `custom_components/pyFlexit/flexit.py` (the `Flexit`
asynchronous HTTP client class) and proofs about its request/authentication
pipeline, read/write pipelines, credential manager and session lifecycle.

Modelling conventions:
* Decoded JSON payloads are values of the inductive `JVal`.
* Python `dict[key]` subscripting is `pyIndex` and is fallible (`KeyError` /
  `TypeError`), mirroring exception propagation with `Except`.
* A single network exchange is summarised by a `TransportOutcome`: either the
  bounded wait expired (`timeout`), the transport layer failed
  (`clientError`, covering `aiohttp.ClientError`, `aiohttp.ClientResponseError`
  raised during the request, and `socket.gaierror`), or a response arrived with
  a status code, an optional declared Content-Type header, a raw body text and
  an optional decoded JSON body (`none` when the body is not valid JSON).
* `aiohttp.ClientResponse.raise_for_status` raises `ClientResponseError`
  exactly when the response status is >= 400; this documented library
  behaviour is embedded in `classify_outcome`.
* Python `float(temp)` is modelled by `pyFloat`: `isFloatString` recognises
  CPython's accepted float-literal syntax (optional surrounding whitespace,
  optional sign, digits with PEP 515 underscores, optional fraction and
  exponent, or inf/infinity/nan case-insensitively) and decides whether the
  conversion raises `ValueError`; the numeric value itself is recorded
  symbolically as `PyValue.pyFloat temp`, since no claim compares numeric
  magnitudes, only which value is stored and whether the call raises.
* The two external formatters `FlexitInfo.format_dict` / `DeviceInfo.format_dict`
  (from `models.py`, an external collaborator per the spec) are opaque function
  parameters of the read operations.
-/

namespace Flexit

/-- Decoded JSON value. -/
inductive JVal where
  | jnull
  | jbool (b : Bool)
  | jnum (q : Rat)
  | jstr (s : String)
  | jarr (xs : List JVal)
  | jobj (fields : List (String × JVal))

/-- Values stored in the cached `data` / `device_info` mappings.
`pyFloat s` records the result of Python `float(s)` symbolically;
`pyStr s` is a plain string value. -/
inductive PyValue where
  | pyFloat (s : String)
  | pyStr (s : String)
deriving DecidableEq, Repr

/-- A cached mapping (Python `dict`) from semantic field name to value. -/
def PyDict : Type := List (String × PyValue)

/-- Python exceptions that can propagate out of the client's methods. -/
inductive PyErr where
  | flexitConnectionError (msg : String)
  | flexitError (msg : String) (contentType : String) (response : String)
  | keyError (key : String)
  | typeError
  | valueError (s : String)
  | jsonDecodeError
deriving DecidableEq, Repr

/-- Whether an exception is the `FlexitConnectionError` class (flexit.py's
connection-error classification). -/
def PyErr.isFlexitConnectionError : PyErr → Bool
  | .flexitConnectionError _ => true
  | _ => false

/-- Whether an exception is the `FlexitError` class (flexit.py's
protocol-error classification for unexpected responses). -/
def PyErr.isFlexitError : PyErr → Bool
  | .flexitError _ _ _ => true
  | _ => false

/-- First-match association-list lookup, the semantics of Python `dict`
access on a decoded JSON object. -/
def lookupJ : List (String × JVal) → String → Option JVal
  | [], _ => none
  | (k, v) :: rest, key => if k == key then some v else lookupJ rest key

/-- Python subscripting `v[key]` on a decoded JSON value: a missing key raises
`KeyError`, subscripting a non-object with a string raises `TypeError`. -/
def pyIndex (v : JVal) (key : String) : Except PyErr JVal :=
  match v with
  | .jobj fields =>
    match lookupJ fields key with
    | some w => .ok w
    | none => .error (.keyError key)
  | _ => .error .typeError

/-- Python equality `v == s` of a decoded JSON value against a string
literal: true exactly when `v` is a string with the same content; any
non-string value compares unequal without error. -/
def JVal.eqStr (v : JVal) (s : String) : Bool :=
  match v with
  | .jstr t => t == s
  | _ => false

/-- Python `d[key] = value` on a cached mapping: replace the first matching
key in insertion order, or append. -/
def dictSet : PyDict → String → PyValue → PyDict
  | [], key, value => [(key, value)]
  | (k, v) :: rest, key, value =>
    if k == key then (key, value) :: rest else (k, v) :: dictSet rest key value

/-- Python `d.get(key)` on a cached mapping. -/
def dictGet : PyDict → String → Option PyValue
  | [], _ => none
  | (k, v) :: rest, key => if k == key then some v else dictGet rest key

/- Opaque data-point path constants imported from `const.py`. The spec (§1)
excludes them as external opaque string constants; their exact values are
irrelevant to every property below, so they are distinct placeholder
strings. -/

def VENTILATION_MODE_PATH : String := "dp/ventilation_mode"

def VENTILATION_MODE_PUT_PATH : String := "dp/ventilation_mode_put"

def OUTSIDE_AIR_TEMPERATURE_PATH : String := "dp/outside_air_temperature"

def SUPPLY_AIR_TEMPERATURE_PATH : String := "dp/supply_air_temperature"

def EXTRACT_AIR_TEMPERATURE_PATH : String := "dp/extract_air_temperature"

def EXHAUST_AIR_TEMPERATURE_PATH : String := "dp/exhaust_air_temperature"

def HOME_AIR_TEMPERATURE_PATH : String := "dp/home_air_temperature"

def AWAY_AIR_TEMPERATURE_PATH : String := "dp/away_air_temperature"

def FILTER_STATE_PATH : String := "dp/filter_state"

def FILTER_TIME_FOR_EXCHANGE_PATH : String := "dp/filter_time_for_exchange"

def ROOM_TEMPERATURE_PATH : String := "dp/room_temperature"

def ELECTRIC_HEATER_PATH : String := "dp/electric_heater"

def APPLICATION_SOFTWARE_VERSION_PATH : String := "dp/application_software_version"

def DEVICE_DESCRIPTION_PATH : String := "dp/device_description"

def MODEL_NAME_PATH : String := "dp/model_name"

def MODEL_INFORMATION_PATH : String := "dp/model_information"

def SERIAL_NUMBER_PATH : String := "dp/serial_number"

def FIRMWARE_REVISION_PATH : String := "dp/firmware_revision"

def OFFLINE_ONLINE_PATH : String := "dp/offline_online"

def SYSTEM_STATUS_PATH : String := "dp/system_status"

def LAST_RESTART_REASON_PATH : String := "dp/last_restart_reason"

def TOKEN_PATH : String := "/Token"

def DATAPOINTS_PATH : String := "/DataPoints/"

/-- Uppercase hexadecimal digit, for percent-encoding. -/
def hexDigitChar (n : Nat) : Char :=
  if n < 10 then Char.ofNat (48 + n) else Char.ofNat (55 + n)

/-- Percent-encoding of one character per `urllib.parse.quote` with the
default `safe` set (unreserved characters and the slash are kept; every
other character is percent-encoded). The strings quoted by this client are
ASCII, so single-byte encoding is exact. -/
def quoteChar (c : Char) : String :=
  if c.isAlphanum || c == '_' || c == '.' || c == '-' || c == '~' || c == '/' then
    String.singleton c
  else
    "%" ++ String.singleton (hexDigitChar (c.toNat / 16))
        ++ String.singleton (hexDigitChar (c.toNat % 16))

/-- `urllib.parse.quote` on an ASCII string. -/
def quote (s : String) : String := String.join (s.toList.map quoteChar)

/-- Is `needle` a prefix of `hay` (character lists)? -/
def charsPrefixOf : List Char → List Char → Bool
  | [], _ => true
  | _ :: _, [] => false
  | a :: as, b :: bs => a == b && charsPrefixOf as bs

/-- Is `needle` an infix of the character list? -/
def charsInfixOf (needle : List Char) : List Char → Bool
  | [] => needle.isEmpty
  | c :: rest => charsPrefixOf needle (c :: rest) || charsInfixOf needle rest

/-- Python `needle in hay` on strings: substring containment. -/
def containsSubstr (hay needle : String) : Bool :=
  charsInfixOf needle.toList hay.toList

/-- ASCII whitespace stripped by Python's `float(str)` conversion
(space, tab, newline, carriage return, vertical tab, form feed). -/
def isPySpace (c : Char) : Bool :=
  c == ' ' || c == '\t' || c == '\n' || c == '\r' || c.toNat == 11 || c.toNat == 12

/-- Strip leading and trailing whitespace (as `float(str)` does). -/
def stripPySpace (cs : List Char) : List Char :=
  ((cs.dropWhile isPySpace).reverse.dropWhile isPySpace).reverse

/-- Consume the continuation of a digit part: `('_'? digit)*` with PEP 515
underscores (an underscore must sit between two digits); returns the
unconsumed rest. -/
def takeDigitPartAux : List Char → List Char
  | '_' :: d :: cs => if d.isDigit then takeDigitPartAux cs else '_' :: d :: cs
  | d :: cs => if d.isDigit then takeDigitPartAux cs else d :: cs
  | [] => []

/-- Consume a digit part `digit ('_'? digit)*`; `none` when there is no
leading digit. -/
def takeDigitPart : List Char → Option (List Char)
  | c :: cs => if c.isDigit then some (takeDigitPartAux cs) else none
  | [] => none

/-- After the mantissa: the input must be empty or an exponent
`('e'|'E') sign? digitpart` consuming everything. -/
def afterExp : List Char → Bool
  | [] => true
  | c :: rest =>
    if c == 'e' || c == 'E' then
      let rest2 :=
        match rest with
        | s :: r2 => if s == '+' || s == '-' then r2 else s :: r2
        | [] => []
      match takeDigitPart rest2 with
      | some [] => true
      | _ => false
    else false

/-- The part of a float literal after the optional sign: `inf`, `infinity`
or `nan` (case-insensitive), or a number
`(digitpart ['.' [digitpart]] | '.' digitpart) [exponent]`. -/
def isFloatBody (cs : List Char) : Bool :=
  let low := cs.map Char.toLower
  if low == ['i', 'n', 'f'] || low == ['i', 'n', 'f', 'i', 'n', 'i', 't', 'y']
      || low == ['n', 'a', 'n'] then
    true
  else
    match takeDigitPart cs with
    | some rest =>
      match rest with
      | '.' :: rest2 =>
        match takeDigitPart rest2 with
        | some rest3 => afterExp rest3
        | none => afterExp rest2
      | _ => afterExp rest
    | none =>
      match cs with
      | '.' :: rest2 =>
        match takeDigitPart rest2 with
        | some rest3 => afterExp rest3
        | none => false
      | _ => false

/-- Does Python `float(s)` succeed on the ASCII string `s`? Whitespace is
stripped, then an optional sign precedes the body. -/
def isFloatString (s : String) : Bool :=
  match stripPySpace s.toList with
  | c :: rest =>
    if c == '+' || c == '-' then isFloatBody rest else isFloatBody (c :: rest)
  | [] => false

/-- Python `float(s)`: raises `ValueError` when `s` is not a valid float
literal; otherwise the parsed value, recorded symbolically. -/
def pyFloat (s : String) : Except PyErr PyValue :=
  if isFloatString s then .ok (.pyFloat s) else .error (.valueError s)

/-- One HTTP request dispatched by the client: the `method`, `url` and `body`
arguments handed to `_generic_request` (the absolute target adds the fixed
scheme and host to `url`). -/
structure Request where
  method : String
  url : String
  body : Option String
deriving DecidableEq, Repr

/-- The observable outcome of the single network exchange attempted by one
`_generic_request` call. `decoded = none` means the body text is not valid
JSON (decoding it raises). -/
inductive TransportOutcome where
  | timeout
  | clientError
  | response (status : Nat) (contentType : Option String) (bodyText : String)
      (decoded : Option JVal)

/-- The mutable instance state of the `Flexit` class (`__init__`, lines
50-69). Dates are modelled at day granularity as integers (`date.today()`
is a parameter `today` where needed). `hasSession` is `self._session is not
None`; `closeSession` is `self._close_session`. `token` is a decoded JSON
value because `set_token` stores `response["access_token"]` unchecked;
it is initialised to the empty string. -/
structure ClientState where
  username : String
  password : String
  api_key : String
  token : JVal
  token_refreshdate : Int
  data : PyDict
  device_info : PyDict
  hasSession : Bool
  closeSession : Bool

/-- `Flexit.__init__`: a fresh client, with or without a caller-supplied
session, constructed on day `today` (so `token_refreshdate = today`). -/
def initClient (username password api_key : String) (sessionProvided : Bool)
    (today : Int) : ClientState :=
  { username := username, password := password, api_key := api_key,
    token := .jstr "", token_refreshdate := today,
    data := [], device_info := [],
    hasSession := sessionProvided, closeSession := false }

/-- Lines 96-98 of `_generic_request`: lazily create the session and record
ownership. -/
def ensureSession (st : ClientState) : ClientState :=
  if st.hasSession then st
  else { st with hasSession := true, closeSession := true }

/-- Lines 100-135 of `_generic_request`: timeout and transport failures are
re-raised as `FlexitConnectionError`; `raise_for_status` (status >= 400)
also lands in that handler; then the declared Content-Type (defaulting to
the empty string) must contain "application/json" or a `FlexitError`
carrying the content type and raw body is raised; finally the body is
decoded as JSON — a decode failure there is outside the try/except and
escapes as an unclassified `json` decode error. -/
def classify_outcome : TransportOutcome → Except PyErr JVal
  | .timeout =>
    .error (.flexitConnectionError "Timeout occurred while connecting to Flexit device")
  | .clientError =>
    .error (.flexitConnectionError "Error occurred while communicating with Flexit device")
  | .response status ct body decoded =>
    if 400 ≤ status then
      .error (.flexitConnectionError "Error occurred while communicating with Flexit device")
    else
      let contentType := ct.getD ""
      if containsSubstr contentType "application/json" then
        match decoded with
        | some j => .ok j
        | none => .error .jsonDecodeError
      else
        .error (.flexitError "Unexpected response from the Flexit device" contentType body)

/-- `Flexit._generic_request`: ensure the session exists (mutating the
instance), then classify the exchange's outcome. -/
def generic_request (st : ClientState) (o : TransportOutcome) :
    ClientState × Except PyErr JVal :=
  (ensureSession st, classify_outcome o)

/-- `Flexit.get_token_body` (line 71). -/
def get_token_body (st : ClientState) : String :=
  "grant_type=password&username=" ++ st.username ++ "&password=" ++ st.password

/-- `Flexit.put_body` (line 184): the literal `\x7b"Value": "<value>"\x7d`. -/
def put_body (value : String) : String :=
  "\x7b\"Value\": \"" ++ value ++ "\"\x7d"

/-- `Flexit.get_escaped_datapoints_url` (line 187). -/
def get_escaped_datapoints_url (id : String) : String :=
  DATAPOINTS_PATH ++ quote id

/-- One entry `\x7b"DataPoints":"<path>"\x7d` of the filter literal built by
the f-strings in `update_data` / `update_device_info`. -/
def dpEntry (p : String) : String :=
  "\x7b\"DataPoints\":\"" ++ p ++ "\"\x7d"

/-- The exact JSON-array literal produced by the multi-line f-strings of
`update_data` / `update_device_info` (opening bracket, then each entry on
its own line indented by eight spaces, comma-separated, closing bracket). -/
def dataPointsFilter (paths : List String) : String :=
  "[" ++ String.intercalate "," (paths.map (fun p => "\n        " ++ dpEntry p)) ++ "]"

/-- The eleven device-state data points queried by `update_data`
(lines 192-203), in source order. -/
def update_data_points : List String :=
  [VENTILATION_MODE_PATH, OUTSIDE_AIR_TEMPERATURE_PATH, SUPPLY_AIR_TEMPERATURE_PATH,
   EXTRACT_AIR_TEMPERATURE_PATH, EXHAUST_AIR_TEMPERATURE_PATH, HOME_AIR_TEMPERATURE_PATH,
   AWAY_AIR_TEMPERATURE_PATH, FILTER_STATE_PATH, FILTER_TIME_FOR_EXCHANGE_PATH,
   ROOM_TEMPERATURE_PATH, ELECTRIC_HEATER_PATH]

/-- The nine device-info data points queried by `update_device_info`
(lines 212-221), in source order. -/
def device_info_points : List String :=
  [APPLICATION_SOFTWARE_VERSION_PATH, DEVICE_DESCRIPTION_PATH, MODEL_NAME_PATH,
   MODEL_INFORMATION_PATH, SERIAL_NUMBER_PATH, FIRMWARE_REVISION_PATH,
   OFFLINE_ONLINE_PATH, SYSTEM_STATUS_PATH, LAST_RESTART_REASON_PATH]

/-- The local `filterPath` variable of `update_data` / `update_device_info`. -/
def filterPath : String := "/DataPoints/Values?filterId="

/-- The result of one client method call: the instance state after the call,
the requests dispatched by it (in order), and either normal return or a
propagated exception. -/
structure OpResult where
  state : ClientState
  requests : List Request
  result : Except PyErr Unit

/-- `response["stateTexts"][key]`, the two-step subscript of the write
confirmation protocol. -/
def stateText (resp : JVal) (key : String) : Except PyErr JVal :=
  match pyIndex resp "stateTexts" with
  | .error e => .error e
  | .ok texts => pyIndex texts key

/-- `Flexit.set_token` (lines 176-182): refresh only when
`token_refreshdate == date.today()`; on refresh, POST the password-grant
body to the token endpoint, store `response["access_token"]` and set the
refresh date to tomorrow. A missing `access_token` key raises before either
field is assigned. -/
def set_token (st : ClientState) (today : Int) (o : TransportOutcome) : OpResult :=
  if st.token_refreshdate = today then
    let req : Request := ⟨"POST", TOKEN_PATH, some (get_token_body st)⟩
    match generic_request st o with
    | (st1, .error e) => ⟨st1, [req], .error e⟩
    | (st1, .ok resp) =>
      match pyIndex resp "access_token" with
      | .error e => ⟨st1, [req], .error e⟩
      | .ok v =>
        ⟨{ st1 with token := v, token_refreshdate := today + 1 }, [req], .ok ()⟩
  else ⟨st, [], .ok ()⟩

/-- `Flexit.update_data` (lines 190-208): one GET for the eleven state data
points, then replace the whole `data` mapping with the formatter's output.
`format_dict` is the external `FlexitInfo.format_dict`. -/
def update_data (st : ClientState) (o : TransportOutcome)
    (format_dict : JVal → PyDict) : OpResult :=
  let req : Request :=
    ⟨"GET", filterPath ++ quote (dataPointsFilter update_data_points), none⟩
  match generic_request st o with
  | (st1, .error e) => ⟨st1, [req], .error e⟩
  | (st1, .ok resp) => ⟨{ st1 with data := format_dict resp }, [req], .ok ()⟩

/-- `Flexit.update_device_info` (lines 210-226): one GET for the nine info
data points, then replace the whole `device_info` mapping with the
formatter's output. `format_dict` is the external `DeviceInfo.format_dict`. -/
def update_device_info (st : ClientState) (o : TransportOutcome)
    (format_dict : JVal → PyDict) : OpResult :=
  let req : Request :=
    ⟨"GET", filterPath ++ quote (dataPointsFilter device_info_points), none⟩
  match generic_request st o with
  | (st1, .error e) => ⟨st1, [req], .error e⟩
  | (st1, .ok resp) => ⟨{ st1 with device_info := format_dict resp }, [req], .ok ()⟩

/-- `Flexit.set_home_temp` (lines 228-236): PUT the new value to the home
temperature data point; only when the response's status text for that data
point equals "Success" is `float(temp)` evaluated and stored in the cache —
so a non-numeric `temp` raises `ValueError` there, leaving the cache
unchanged. -/
def set_home_temp (st : ClientState) (o : TransportOutcome) (temp : String) : OpResult :=
  let req : Request :=
    ⟨"PUT", get_escaped_datapoints_url HOME_AIR_TEMPERATURE_PATH, some (put_body temp)⟩
  match generic_request st o with
  | (st1, .error e) => ⟨st1, [req], .error e⟩
  | (st1, .ok resp) =>
    match stateText resp HOME_AIR_TEMPERATURE_PATH with
    | .error e => ⟨st1, [req], .error e⟩
    | .ok v =>
      if v.eqStr "Success" then
        match pyFloat temp with
        | .error e => ⟨st1, [req], .error e⟩
        | .ok val =>
          ⟨{ st1 with data := dictSet st1.data "home_air_temperature" val },
           [req], .ok ()⟩
      else ⟨st1, [req], .ok ()⟩

/-- `Flexit.set_away_temp` (lines 238-246): as `set_home_temp` but for the
away temperature data point (and the same `float(temp)` `ValueError` path at
line 246). -/
def set_away_temp (st : ClientState) (o : TransportOutcome) (temp : String) : OpResult :=
  let req : Request :=
    ⟨"PUT", get_escaped_datapoints_url AWAY_AIR_TEMPERATURE_PATH, some (put_body temp)⟩
  match generic_request st o with
  | (st1, .error e) => ⟨st1, [req], .error e⟩
  | (st1, .ok resp) =>
    match stateText resp AWAY_AIR_TEMPERATURE_PATH with
    | .error e => ⟨st1, [req], .error e⟩
    | .ok v =>
      if v.eqStr "Success" then
        match pyFloat temp with
        | .error e => ⟨st1, [req], .error e⟩
        | .ok val =>
          ⟨{ st1 with data := dictSet st1.data "away_air_temperature" val },
           [req], .ok ()⟩
      else ⟨st1, [req], .ok ()⟩

/-- The `switcher` lookup table of `set_mode` (line 249). -/
def mode_switcher : List (String × Int) := [("Home", 0), ("Away", 2), ("High", 4)]

/-- The `switcher` lookup table of `set_heater_state` (line 265). -/
def heater_switcher : List (String × Int) := [("on", 1), ("off", 0)]

/-- Python `switcher.get(key, -1)`. -/
def switcherGet : List (String × Int) → String → Int
  | [], _ => -1
  | (k, v) :: rest, key => if k == key then v else switcherGet rest key

/-- `Flexit.set_mode` (lines 248-262): translate the label through the fixed
table; an unknown label returns immediately (no request, no mutation);
otherwise PUT the integer code and store the label in the cache only on a
"Success" status text. -/
def set_mode (st : ClientState) (o : TransportOutcome) (mode : String) : OpResult :=
  let mode_int := switcherGet mode_switcher mode
  if mode_int = -1 then ⟨st, [], .ok ()⟩
  else
    let req : Request :=
      ⟨"PUT", get_escaped_datapoints_url VENTILATION_MODE_PUT_PATH,
       some (put_body (toString mode_int))⟩
    match generic_request st o with
    | (st1, .error e) => ⟨st1, [req], .error e⟩
    | (st1, .ok resp) =>
      match stateText resp VENTILATION_MODE_PUT_PATH with
      | .error e => ⟨st1, [req], .error e⟩
      | .ok v =>
        if v.eqStr "Success" then
          ⟨{ st1 with data := dictSet st1.data "ventilation_mode" (.pyStr mode) },
           [req], .ok ()⟩
        else ⟨st1, [req], .ok ()⟩

/-- `Flexit.set_heater_state` (lines 264-278): as `set_mode` but with the
on/off table, the electric-heater data point and the `electric_heater`
cache field. -/
def set_heater_state (st : ClientState) (o : TransportOutcome) (state : String) : OpResult :=
  let state_int := switcherGet heater_switcher state
  if state_int = -1 then ⟨st, [], .ok ()⟩
  else
    let req : Request :=
      ⟨"PUT", get_escaped_datapoints_url ELECTRIC_HEATER_PATH,
       some (put_body (toString state_int))⟩
    match generic_request st o with
    | (st1, .error e) => ⟨st1, [req], .error e⟩
    | (st1, .ok resp) =>
      match stateText resp ELECTRIC_HEATER_PATH with
      | .error e => ⟨st1, [req], .error e⟩
      | .ok v =>
        if v.eqStr "Success" then
          ⟨{ st1 with data := dictSet st1.data "electric_heater" (.pyStr state) },
           [req], .ok ()⟩
        else ⟨st1, [req], .ok ()⟩

/-- `Flexit.close` (lines 281-284): returns whether the underlying
`session.close()` is awaited, namely when a session exists and the client
owns it. -/
def close (st : ClientState) : Bool :=
  st.hasSession && st.closeSession

end Flexit

namespace Flexit

/-! Helper lemmas shared by the claim theorems. -/

theorem ensureSession_token (st : ClientState) : (ensureSession st).token = st.token := by
  unfold ensureSession; split <;> rfl

theorem ensureSession_refreshdate (st : ClientState) :
    (ensureSession st).token_refreshdate = st.token_refreshdate := by
  unfold ensureSession; split <;> rfl

theorem ensureSession_data (st : ClientState) : (ensureSession st).data = st.data := by
  unfold ensureSession; split <;> rfl

theorem ensureSession_device_info (st : ClientState) :
    (ensureSession st).device_info = st.device_info := by
  unfold ensureSession; split <;> rfl

theorem ensureSession_hasSession (st : ClientState) :
    (ensureSession st).hasSession = true := by
  unfold ensureSession; split <;> simp_all

theorem ensureSession_closeSession (st : ClientState) :
    (ensureSession st).closeSession = (st.closeSession || !st.hasSession) := by
  unfold ensureSession; split <;> simp_all

/-- CLAIM C4: if the stored refresh date equals today, `set_token` performs
the token acquisition (dispatches the POST to the token endpoint), stores the
returned access token and sets the refresh date to today plus one day; if the
stored refresh date is strictly after today, no acquisition occurs (no
request, state unchanged) and the existing token is reused. -/
theorem C4_token_refresh_gating (st : ClientState) (today : Int)
    (o : TransportOutcome) (resp v : JVal) :
    (st.token_refreshdate = today → classify_outcome o = .ok resp →
      pyIndex resp "access_token" = .ok v →
      (set_token st today o).state.token = v ∧
      (set_token st today o).state.token_refreshdate = today + 1 ∧
      (set_token st today o).requests = [⟨"POST", TOKEN_PATH, some (get_token_body st)⟩]) ∧
    (today < st.token_refreshdate →
      set_token st today o = ⟨st, [], .ok ()⟩) := by
  constructor
  · intro hdue hok hv
    simp [set_token, hdue, generic_request, hok, hv]
  · intro hgt
    have hne : ¬ (st.token_refreshdate = today) := by omega
    simp [set_token, hne]

/-- Witness for C4: a concrete client due on day 0 acquires the token
"tok" and moves its refresh date to day 1; a client whose refresh date (1)
is strictly after today (0) is untouched by `set_token`. -/
theorem C4_token_refresh_gating_witness :
    ((set_token (initClient "u" "p" "k" true 0) 0
        (.response 200 (some "application/json") ""
          (some (.jobj [("access_token", .jstr "tok")])))).state.token = .jstr "tok" ∧
     (set_token (initClient "u" "p" "k" true 0) 0
        (.response 200 (some "application/json") ""
          (some (.jobj [("access_token", .jstr "tok")])))).state.token_refreshdate = 1 ∧
     (set_token (initClient "u" "p" "k" true 0) 0
        (.response 200 (some "application/json") ""
          (some (.jobj [("access_token", .jstr "tok")])))).requests
       = [⟨"POST", TOKEN_PATH, some (get_token_body (initClient "u" "p" "k" true 0))⟩]) ∧
    set_token (initClient "u" "p" "k" true 1) 0 .timeout
      = ⟨initClient "u" "p" "k" true 1, [], .ok ()⟩ :=
  ⟨(C4_token_refresh_gating (initClient "u" "p" "k" true 0) 0
      (.response 200 (some "application/json") ""
        (some (.jobj [("access_token", .jstr "tok")])))
      (.jobj [("access_token", .jstr "tok")]) (.jstr "tok")).1 rfl rfl rfl,
   (C4_token_refresh_gating (initClient "u" "p" "k" true 1) 0 .timeout
      (.jobj []) .jnull).2 (by decide)⟩

/-- CLAIM C6: when transport succeeded (status below 400) and the declared
Content-Type (defaulting to the empty string) does not contain
"application/json", the dispatcher raises the `FlexitError` protocol error
carrying the actual content type and the raw body text — for every value of
the decoded field, so the body is never parsed as JSON. -/
theorem C6_content_type_guard (st : ClientState) (status : Nat)
    (ct : Option String) (body : String) (decoded : Option JVal)
    (hs : status < 400)
    (hct : containsSubstr (ct.getD "") "application/json" = false) :
    (generic_request st (.response status ct body decoded)).2
      = .error (.flexitError "Unexpected response from the Flexit device" (ct.getD "") body) := by
  have hns : ¬ (400 ≤ status) := by omega
  simp [generic_request, classify_outcome, hns, hct]

/-- Witness for C6: a 200-status response declaring `text/html`, even with a
decodable body, surfaces as the protocol error carrying "text/html" and the
raw body. -/
theorem C6_content_type_guard_witness :
    (generic_request (initClient "u" "p" "k" true 0)
        (.response 200 (some "text/html") "<html>oops</html>" (some (.jobj [])))).2
      = .error (.flexitError "Unexpected response from the Flexit device"
          "text/html" "<html>oops</html>") :=
  C6_content_type_guard (initClient "u" "p" "k" true 0) 200 (some "text/html")
    "<html>oops</html>" (some (.jobj [])) (by decide) (by decide)

/-- CLAIM C7: a label outside the fixed lookup table makes `set_mode` /
`set_heater_state` return immediately: no request is dispatched, the state
is unchanged and no error is raised. -/
theorem C7_unrecognized_label_noop (st : ClientState) (o : TransportOutcome)
    (mode state : String)
    (hm : (mode_switcher.map Prod.fst).contains mode = false)
    (hs : (heater_switcher.map Prod.fst).contains state = false) :
    set_mode st o mode = ⟨st, [], .ok ()⟩ ∧
    set_heater_state st o state = ⟨st, [], .ok ()⟩ := by
  have hm1 : switcherGet mode_switcher mode = -1 := by
    simp [mode_switcher] at hm
    obtain ⟨h1, h2, h3⟩ := hm
    simp [switcherGet, mode_switcher, Ne.symm h1, Ne.symm h2, Ne.symm h3]
  have hs1 : switcherGet heater_switcher state = -1 := by
    simp [heater_switcher] at hs
    obtain ⟨h1, h2⟩ := hs
    simp [switcherGet, heater_switcher, Ne.symm h1, Ne.symm h2]
  constructor
  · simp [set_mode, hm1]
  · simp [set_heater_state, hs1]

/-- Witness for C7: `set_mode "Invalid"` and `set_heater_state "Maybe"` are
no-ops on a concrete client even when the transport would fail. -/
theorem C7_unrecognized_label_noop_witness :
    set_mode (initClient "u" "p" "k" true 0) .timeout "Invalid"
      = ⟨initClient "u" "p" "k" true 0, [], .ok ()⟩ ∧
    set_heater_state (initClient "u" "p" "k" true 0) .timeout "Maybe"
      = ⟨initClient "u" "p" "k" true 0, [], .ok ()⟩ :=
  C7_unrecognized_label_noop (initClient "u" "p" "k" true 0) .timeout
    "Invalid" "Maybe" (by decide) (by decide)

end Flexit

namespace Flexit

/-- CLAIM C8: a successful read replaces the entire cached mapping with the
formatter's output; consequently any field absent from the newly formatted
response is absent from the cache afterwards, whatever the cache held
before. -/
theorem C8_full_replace (st : ClientState) (o : TransportOutcome)
    (fmtD fmtI : JVal → PyDict) (resp : JVal) (k : String)
    (hok : classify_outcome o = .ok resp) :
    (update_data st o fmtD).state.data = fmtD resp ∧
    (update_device_info st o fmtI).state.device_info = fmtI resp ∧
    (dictGet (fmtD resp) k = none →
      dictGet (update_data st o fmtD).state.data k = none) ∧
    (dictGet (fmtI resp) k = none →
      dictGet (update_device_info st o fmtI).state.device_info k = none) := by
  have hD : (update_data st o fmtD).state.data = fmtD resp := by
    simp [update_data, generic_request, hok]
  have hI : (update_device_info st o fmtI).state.device_info = fmtI resp := by
    simp [update_device_info, generic_request, hok]
  refine ⟨hD, hI, ?_, ?_⟩
  · intro h; rw [hD]; exact h
  · intro h; rw [hI]; exact h

/-- Witness for C8: a client whose cache holds a stale field gets it dropped
by a successful read whose formatted response omits it. -/
theorem C8_full_replace_witness :
    (update_data
        { initClient "u" "p" "k" true 0 with data := [("old_field", .pyStr "x")] }
        (.response 200 (some "application/json") "" (some (.jobj [])))
        (fun _ => [])).state.data = [] ∧
    dictGet (update_data
        { initClient "u" "p" "k" true 0 with data := [("old_field", .pyStr "x")] }
        (.response 200 (some "application/json") "" (some (.jobj [])))
        (fun _ => [])).state.data "old_field" = none :=
  ⟨(C8_full_replace
      { initClient "u" "p" "k" true 0 with data := [("old_field", .pyStr "x")] }
      (.response 200 (some "application/json") "" (some (.jobj [])))
      (fun _ => []) (fun _ => []) (.jobj []) "old_field" rfl).1,
   (C8_full_replace
      { initClient "u" "p" "k" true 0 with data := [("old_field", .pyStr "x")] }
      (.response 200 (some "application/json") "" (some (.jobj [])))
      (fun _ => []) (fun _ => []) (.jobj []) "old_field" rfl).2.2.1 rfl⟩

/-- CLAIM C9: `close()` releases the session exactly when the client itself
created it. A client constructed with a caller-supplied session never has
the ownership flag set — not at construction, not after the lazy
session-creation step, not after a request — so `close()` leaves the session
open; a client without a supplied session creates one on its first request,
marks it owned, and `close()` then releases it. The dispatching operations
change the two session fields exactly as the lazy-creation step does, which
only marks ownership when it creates the session itself. -/
theorem C9_session_ownership (u p a : String) (today : Int) (st : ClientState)
    (o : TransportOutcome) (fmt : JVal → PyDict) (temp : String) :
    close (initClient u p a true today) = false ∧
    close (ensureSession (initClient u p a true today)) = false ∧
    close (update_data (initClient u p a true today) o fmt).state = false ∧
    close (update_data (initClient u p a false today) o fmt).state = true ∧
    (update_data st o fmt).state.hasSession = (ensureSession st).hasSession ∧
    (update_data st o fmt).state.closeSession = (ensureSession st).closeSession ∧
    (set_home_temp st o temp).state.hasSession = (ensureSession st).hasSession ∧
    (set_home_temp st o temp).state.closeSession = (ensureSession st).closeSession ∧
    (ensureSession st).hasSession = true ∧
    (ensureSession st).closeSession = (st.closeSession || !st.hasSession) := by
  have hud : ∀ (s : ClientState),
      (update_data s o fmt).state.hasSession = (ensureSession s).hasSession ∧
      (update_data s o fmt).state.closeSession = (ensureSession s).closeSession := by
    intro s
    cases hc : classify_outcome o <;> simp [update_data, generic_request, hc]
  have hht : (set_home_temp st o temp).state.hasSession = (ensureSession st).hasSession ∧
      (set_home_temp st o temp).state.closeSession = (ensureSession st).closeSession := by
    cases hc : classify_outcome o with
    | error e => simp [set_home_temp, generic_request, hc]
    | ok resp =>
      cases hs : stateText resp HOME_AIR_TEMPERATURE_PATH with
      | error e => simp [set_home_temp, generic_request, hc, hs]
      | ok v =>
        cases hv : v.eqStr "Success" with
        | false => simp [set_home_temp, generic_request, hc, hs, hv]
        | true =>
          cases hp : pyFloat temp <;>
            simp [set_home_temp, generic_request, hc, hs, hv, hp]
  refine ⟨rfl, rfl, ?_, ?_, (hud st).1, (hud st).2, hht.1, hht.2,
    ensureSession_hasSession st, ensureSession_closeSession st⟩
  · simp only [close, (hud (initClient u p a true today)).1,
      (hud (initClient u p a true today)).2,
      ensureSession_hasSession, ensureSession_closeSession]
    simp [initClient]
  · simp only [close, (hud (initClient u p a false today)).1,
      (hud (initClient u p a false today)).2,
      ensureSession_hasSession, ensureSession_closeSession]
    simp [initClient]

/-- CLAIM C10: when the client is due for refresh and the token response
decodes but lacks the `access_token` field, the subscript error propagates to
the caller and neither the stored token nor the refresh date changes — the
refresh date still equals today, so the next ensure-token call will attempt
the acquisition again. -/
theorem C10_token_acquisition_atomic (st : ClientState) (today : Int)
    (o : TransportOutcome) (resp : JVal) (e : PyErr)
    (hdue : st.token_refreshdate = today)
    (hok : classify_outcome o = .ok resp)
    (hmiss : pyIndex resp "access_token" = .error e) :
    (set_token st today o).result = .error e ∧
    (set_token st today o).state.token = st.token ∧
    (set_token st today o).state.token_refreshdate = st.token_refreshdate ∧
    (set_token st today o).state.token_refreshdate = today := by
  have hred : set_token st today o
      = ⟨ensureSession st, [⟨"POST", TOKEN_PATH, some (get_token_body st)⟩], .error e⟩ := by
    simp [set_token, hdue, generic_request, hok, hmiss]
  rw [hred]
  exact ⟨rfl, ensureSession_token st, ensureSession_refreshdate st,
    (ensureSession_refreshdate st).trans hdue⟩

/-- Witness for C10: a concrete due client receiving a decoded token
response without `access_token` keeps its empty token and its day-0 refresh
date, and the `KeyError` propagates. -/
theorem C10_token_acquisition_atomic_witness :
    (set_token (initClient "u" "p" "k" true 0) 0
        (.response 200 (some "application/json") "" (some (.jobj [])))).result
      = .error (.keyError "access_token") ∧
    (set_token (initClient "u" "p" "k" true 0) 0
        (.response 200 (some "application/json") "" (some (.jobj [])))).state.token
      = (initClient "u" "p" "k" true 0).token ∧
    (set_token (initClient "u" "p" "k" true 0) 0
        (.response 200 (some "application/json") "" (some (.jobj [])))).state.token_refreshdate
      = 0 :=
  ⟨(C10_token_acquisition_atomic (initClient "u" "p" "k" true 0) 0
      (.response 200 (some "application/json") "" (some (.jobj [])))
      (.jobj []) (.keyError "access_token") rfl rfl rfl).1,
   (C10_token_acquisition_atomic (initClient "u" "p" "k" true 0) 0
      (.response 200 (some "application/json") "" (some (.jobj [])))
      (.jobj []) (.keyError "access_token") rfl rfl rfl).2.1,
   (C10_token_acquisition_atomic (initClient "u" "p" "k" true 0) 0
      (.response 200 (some "application/json") "" (some (.jobj [])))
      (.jobj []) (.keyError "access_token") rfl rfl rfl).2.2.2⟩

end Flexit

namespace Flexit

/-- The call left the stored credential untouched and dispatched no token
acquisition: the token and refresh date are unchanged and no dispatched
request is a POST or addressed to the token endpoint. -/
def noEnsureToken (st : ClientState) (r : OpResult) : Prop :=
  r.state.token = st.token ∧
  r.state.token_refreshdate = st.token_refreshdate ∧
  r.requests.all (fun q => q.method != "POST" && q.url != TOKEN_PATH) = true

/-- CLAIM C1 counterexample: a freshly constructed client is due for refresh
(its refresh date equals today, day 0), yet `update_data` dispatches its GET
without any ensure-token step: exactly one request goes out, it is a GET,
it does not address the token endpoint, and both the stored token and the
refresh date are unchanged (still due). -/
theorem C1_counterexample :
    (initClient "u" "p" "k" true 0).token_refreshdate = 0 ∧
    (update_data (initClient "u" "p" "k" true 0)
        (.response 200 (some "application/json") "" (some (.jobj [])))
        (fun _ => [])).requests.length = 1 ∧
    (update_data (initClient "u" "p" "k" true 0)
        (.response 200 (some "application/json") "" (some (.jobj [])))
        (fun _ => [])).requests.all (fun r => r.method == "GET") = true ∧
    (update_data (initClient "u" "p" "k" true 0)
        (.response 200 (some "application/json") "" (some (.jobj [])))
        (fun _ => [])).requests.all (fun r => r.url != TOKEN_PATH) = true ∧
    (update_data (initClient "u" "p" "k" true 0)
        (.response 200 (some "application/json") "" (some (.jobj [])))
        (fun _ => [])).state.token = .jstr "" ∧
    (update_data (initClient "u" "p" "k" true 0)
        (.response 200 (some "application/json") "" (some (.jobj [])))
        (fun _ => [])).state.token_refreshdate = 0 :=
  ⟨rfl, rfl, by decide, by decide, rfl, rfl⟩

/-- CLAIM C1 amended: no read or write operation performs the ensure-token
step; each dispatches its network request directly with the stored
credential untouched (no token acquisition is ever part of these calls —
credential refresh happens only when the caller invokes `set_token`). -/
theorem C1_amended_no_ensure_token (st : ClientState) (o : TransportOutcome)
    (fmtD fmtI : JVal → PyDict) (temp1 temp2 mode state : String) :
    noEnsureToken st (update_data st o fmtD) ∧
    noEnsureToken st (update_device_info st o fmtI) ∧
    noEnsureToken st (set_home_temp st o temp1) ∧
    noEnsureToken st (set_away_temp st o temp2) ∧
    noEnsureToken st (set_mode st o mode) ∧
    noEnsureToken st (set_heater_state st o state) := by
  refine ⟨?_, ?_, ?_, ?_, ?_, ?_⟩
  · unfold noEnsureToken
    cases hc : classify_outcome o <;>
      simp [update_data, generic_request, hc, ensureSession_token,
        ensureSession_refreshdate] <;> decide
  · unfold noEnsureToken
    cases hc : classify_outcome o <;>
      simp [update_device_info, generic_request, hc, ensureSession_token,
        ensureSession_refreshdate] <;> decide
  · unfold noEnsureToken
    cases hc : classify_outcome o with
    | error e =>
      simp [set_home_temp, generic_request, hc, ensureSession_token,
        ensureSession_refreshdate]
      decide
    | ok resp =>
      cases hs : stateText resp HOME_AIR_TEMPERATURE_PATH with
      | error e =>
        simp [set_home_temp, generic_request, hc, hs, ensureSession_token,
          ensureSession_refreshdate]
        decide
      | ok v =>
        cases hv : v.eqStr "Success" with
        | false =>
          simp [set_home_temp, generic_request, hc, hs, hv, ensureSession_token,
            ensureSession_refreshdate] <;> decide
        | true =>
          cases hp : pyFloat temp1 <;>
            simp [set_home_temp, generic_request, hc, hs, hv, hp, ensureSession_token,
              ensureSession_refreshdate] <;> decide
  · unfold noEnsureToken
    cases hc : classify_outcome o with
    | error e =>
      simp [set_away_temp, generic_request, hc, ensureSession_token,
        ensureSession_refreshdate]
      decide
    | ok resp =>
      cases hs : stateText resp AWAY_AIR_TEMPERATURE_PATH with
      | error e =>
        simp [set_away_temp, generic_request, hc, hs, ensureSession_token,
          ensureSession_refreshdate]
        decide
      | ok v =>
        cases hv : v.eqStr "Success" with
        | false =>
          simp [set_away_temp, generic_request, hc, hs, hv, ensureSession_token,
            ensureSession_refreshdate] <;> decide
        | true =>
          cases hp : pyFloat temp2 <;>
            simp [set_away_temp, generic_request, hc, hs, hv, hp, ensureSession_token,
              ensureSession_refreshdate] <;> decide
  · unfold noEnsureToken set_mode
    by_cases hm : switcherGet mode_switcher mode = -1
    · simp [hm]
    · cases hc : classify_outcome o with
      | error e =>
        simp [hm, generic_request, hc, ensureSession_token,
          ensureSession_refreshdate] <;> decide
      | ok resp =>
        cases hs : stateText resp VENTILATION_MODE_PUT_PATH with
        | error e =>
          simp [hm, generic_request, hc, hs, ensureSession_token,
            ensureSession_refreshdate] <;> decide
        | ok v =>
          cases hv : v.eqStr "Success" <;>
            simp [hm, generic_request, hc, hs, hv, ensureSession_token,
              ensureSession_refreshdate] <;> decide
  · unfold noEnsureToken set_heater_state
    by_cases hm : switcherGet heater_switcher state = -1
    · simp [hm]
    · cases hc : classify_outcome o with
      | error e =>
        simp [hm, generic_request, hc, ensureSession_token,
          ensureSession_refreshdate] <;> decide
      | ok resp =>
        cases hs : stateText resp ELECTRIC_HEATER_PATH with
        | error e =>
          simp [hm, generic_request, hc, hs, ensureSession_token,
            ensureSession_refreshdate] <;> decide
        | ok v =>
          cases hv : v.eqStr "Success" <;>
            simp [hm, generic_request, hc, hs, hv, ensureSession_token,
              ensureSession_refreshdate] <;> decide

end Flexit

namespace Flexit

/-- CLAIM C2 counterexample: when the decoded write response carries a
`stateTexts` map that omits the target data-point key, `set_home_temp` does
NOT return silently — the subscript raises a `KeyError` that propagates to
the caller (the cache is indeed left unchanged, but an error IS raised,
contradicting the claim). -/
theorem C2_counterexample :
    (set_home_temp (initClient "u" "p" "k" true 0)
        (.response 200 (some "application/json") ""
          (some (.jobj [("stateTexts", .jobj [])])))
        "21").result = .error (.keyError HOME_AIR_TEMPERATURE_PATH) ∧
    (set_home_temp (initClient "u" "p" "k" true 0)
        (.response 200 (some "application/json") ""
          (some (.jobj [("stateTexts", .jobj [])])))
        "21").result ≠ .ok () ∧
    (set_home_temp (initClient "u" "p" "k" true 0)
        (.response 200 (some "application/json") ""
          (some (.jobj [("stateTexts", .jobj [])])))
        "21").state.data = [] := by
  refine ⟨rfl, ?_, rfl⟩
  intro h
  exact Except.noConfusion h

/-- CLAIM C2 amended: for every write operation, when the decoded response's
status entry for the target key is present, the cached field updates exactly
when that entry equals the string "Success" (otherwise the cache is
unchanged and no error is raised); but when the response omits `stateTexts`
or the key (or they are not subscriptable), the subscript error propagates
to the caller (the cache is still unchanged). For the two temperature
writes the stored value is `float(temp)`, evaluated only in the "Success"
branch: a non-numeric `temp` raises `ValueError` there, again leaving the
cache unchanged. -/
theorem C2_amended_write_confirmation (st : ClientState) (o : TransportOutcome)
    (resp v : JVal) (e : PyErr) (temp1 temp2 mode state : String)
    (hok : classify_outcome o = .ok resp) :
    ((stateText resp HOME_AIR_TEMPERATURE_PATH = .ok v →
       (v.eqStr "Success" = true →
         (isFloatString temp1 = true →
           (set_home_temp st o temp1).state.data
             = dictSet st.data "home_air_temperature" (.pyFloat temp1) ∧
           (set_home_temp st o temp1).result = .ok ()) ∧
         (isFloatString temp1 = false →
           (set_home_temp st o temp1).state.data = st.data ∧
           (set_home_temp st o temp1).result = .error (.valueError temp1))) ∧
       (v.eqStr "Success" = false →
         (set_home_temp st o temp1).state.data = st.data ∧
         (set_home_temp st o temp1).result = .ok ())) ∧
     (stateText resp HOME_AIR_TEMPERATURE_PATH = .error e →
       (set_home_temp st o temp1).state.data = st.data ∧
       (set_home_temp st o temp1).result = .error e)) ∧
    ((stateText resp AWAY_AIR_TEMPERATURE_PATH = .ok v →
       (v.eqStr "Success" = true →
         (isFloatString temp2 = true →
           (set_away_temp st o temp2).state.data
             = dictSet st.data "away_air_temperature" (.pyFloat temp2) ∧
           (set_away_temp st o temp2).result = .ok ()) ∧
         (isFloatString temp2 = false →
           (set_away_temp st o temp2).state.data = st.data ∧
           (set_away_temp st o temp2).result = .error (.valueError temp2))) ∧
       (v.eqStr "Success" = false →
         (set_away_temp st o temp2).state.data = st.data ∧
         (set_away_temp st o temp2).result = .ok ())) ∧
     (stateText resp AWAY_AIR_TEMPERATURE_PATH = .error e →
       (set_away_temp st o temp2).state.data = st.data ∧
       (set_away_temp st o temp2).result = .error e)) ∧
    (switcherGet mode_switcher mode ≠ -1 →
     (stateText resp VENTILATION_MODE_PUT_PATH = .ok v →
       (v.eqStr "Success" = true →
         (set_mode st o mode).state.data
           = dictSet st.data "ventilation_mode" (.pyStr mode) ∧
         (set_mode st o mode).result = .ok ()) ∧
       (v.eqStr "Success" = false →
         (set_mode st o mode).state.data = st.data ∧
         (set_mode st o mode).result = .ok ())) ∧
     (stateText resp VENTILATION_MODE_PUT_PATH = .error e →
       (set_mode st o mode).state.data = st.data ∧
       (set_mode st o mode).result = .error e)) ∧
    (switcherGet heater_switcher state ≠ -1 →
     (stateText resp ELECTRIC_HEATER_PATH = .ok v →
       (v.eqStr "Success" = true →
         (set_heater_state st o state).state.data
           = dictSet st.data "electric_heater" (.pyStr state) ∧
         (set_heater_state st o state).result = .ok ()) ∧
       (v.eqStr "Success" = false →
         (set_heater_state st o state).state.data = st.data ∧
         (set_heater_state st o state).result = .ok ())) ∧
     (stateText resp ELECTRIC_HEATER_PATH = .error e →
       (set_heater_state st o state).state.data = st.data ∧
       (set_heater_state st o state).result = .error e)) := by
  refine ⟨⟨?_, ?_⟩, ⟨?_, ?_⟩, ?_, ?_⟩
  · intro hst
    refine ⟨?_, ?_⟩
    · intro hv
      constructor <;> intro hf <;>
        simp [set_home_temp, generic_request, hok, hst, hv, pyFloat, hf,
          ensureSession_data]
    · intro hv
      simp [set_home_temp, generic_request, hok, hst, hv, ensureSession_data]
  · intro hst
    simp [set_home_temp, generic_request, hok, hst, ensureSession_data]
  · intro hst
    refine ⟨?_, ?_⟩
    · intro hv
      constructor <;> intro hf <;>
        simp [set_away_temp, generic_request, hok, hst, hv, pyFloat, hf,
          ensureSession_data]
    · intro hv
      simp [set_away_temp, generic_request, hok, hst, hv, ensureSession_data]
  · intro hst
    simp [set_away_temp, generic_request, hok, hst, ensureSession_data]
  · intro hm
    refine ⟨?_, ?_⟩
    · intro hst
      constructor <;> intro hv <;>
        simp [set_mode, hm, generic_request, hok, hst, hv, ensureSession_data]
    · intro hst
      simp [set_mode, hm, generic_request, hok, hst, ensureSession_data]
  · intro hm
    refine ⟨?_, ?_⟩
    · intro hst
      constructor <;> intro hv <;>
        simp [set_heater_state, hm, generic_request, hok, hst, hv, ensureSession_data]
    · intro hst
      simp [set_heater_state, hm, generic_request, hok, hst, ensureSession_data]

/-- Witness for the amended C2: a concrete `set_home_temp` whose response
reports "Success" for the home-temperature data point stores the written
numeric value in the cache and returns normally; with the same "Success"
response but the non-numeric value "abc", the `float` conversion raises
`ValueError` and the cache is unchanged. -/
theorem C2_amended_write_confirmation_witness :
    ((set_home_temp (initClient "u" "p" "k" true 0)
        (.response 200 (some "application/json") ""
          (some (.jobj [("stateTexts",
            .jobj [(HOME_AIR_TEMPERATURE_PATH, .jstr "Success")])])))
        "21").state.data
      = dictSet (initClient "u" "p" "k" true 0).data "home_air_temperature"
          (.pyFloat "21") ∧
     (set_home_temp (initClient "u" "p" "k" true 0)
        (.response 200 (some "application/json") ""
          (some (.jobj [("stateTexts",
            .jobj [(HOME_AIR_TEMPERATURE_PATH, .jstr "Success")])])))
        "21").result = .ok ()) ∧
    ((set_home_temp (initClient "u" "p" "k" true 0)
        (.response 200 (some "application/json") ""
          (some (.jobj [("stateTexts",
            .jobj [(HOME_AIR_TEMPERATURE_PATH, .jstr "Success")])])))
        "abc").state.data = (initClient "u" "p" "k" true 0).data ∧
     (set_home_temp (initClient "u" "p" "k" true 0)
        (.response 200 (some "application/json") ""
          (some (.jobj [("stateTexts",
            .jobj [(HOME_AIR_TEMPERATURE_PATH, .jstr "Success")])])))
        "abc").result = .error (.valueError "abc")) :=
  ⟨(((C2_amended_write_confirmation (initClient "u" "p" "k" true 0)
      (.response 200 (some "application/json") ""
        (some (.jobj [("stateTexts",
          .jobj [(HOME_AIR_TEMPERATURE_PATH, .jstr "Success")])])))
      (.jobj [("stateTexts", .jobj [(HOME_AIR_TEMPERATURE_PATH, .jstr "Success")])])
      (.jstr "Success") .typeError "21" "22" "Home" "on" rfl).1.1 rfl).1 rfl).1 rfl,
   (((C2_amended_write_confirmation (initClient "u" "p" "k" true 0)
      (.response 200 (some "application/json") ""
        (some (.jobj [("stateTexts",
          .jobj [(HOME_AIR_TEMPERATURE_PATH, .jstr "Success")])])))
      (.jobj [("stateTexts", .jobj [(HOME_AIR_TEMPERATURE_PATH, .jstr "Success")])])
      (.jstr "Success") .typeError "abc" "22" "Home" "on" rfl).1.1 rfl).1 rfl).2 rfl⟩

/-- CLAIM C3 counterexample: a transport-successful response declaring
`application/json` whose body fails to decode as JSON produces the
unclassified decode error, which is neither the connection-error class nor
the protocol-error class used elsewhere by the dispatcher. -/
theorem C3_counterexample :
    (generic_request (initClient "u" "p" "k" true 0)
        (.response 200 (some "application/json") "not json" none)).2
      = .error .jsonDecodeError ∧
    PyErr.isFlexitConnectionError .jsonDecodeError = false ∧
    PyErr.isFlexitError .jsonDecodeError = false :=
  ⟨rfl, rfl, rfl⟩

/-- CLAIM C3 amended: a JSON-decoding failure (transport succeeded, content
type contains "application/json", body not decodable) escapes the dispatcher
as an unclassified decode error — `response.json()` sits outside the
try/except, so the failure is neither a `FlexitConnectionError` nor a
`FlexitError`. -/
theorem C3_amended_decode_failure_unclassified (st : ClientState) (status : Nat)
    (ct : Option String) (body : String) (hs : status < 400)
    (hct : containsSubstr (ct.getD "") "application/json" = true) :
    (generic_request st (.response status ct body none)).2 = .error .jsonDecodeError ∧
    PyErr.isFlexitConnectionError .jsonDecodeError = false ∧
    PyErr.isFlexitError .jsonDecodeError = false := by
  have hns : ¬ (400 ≤ status) := by omega
  refine ⟨?_, rfl, rfl⟩
  simp [generic_request, classify_outcome, hns, hct]

/-- Witness for the amended C3: concrete undecodable 200-status JSON
response. -/
theorem C3_amended_decode_failure_unclassified_witness :
    (generic_request (initClient "u" "p" "k" true 0)
        (.response 200 (some "application/json") "not json" none)).2
      = .error .jsonDecodeError ∧
    PyErr.isFlexitConnectionError .jsonDecodeError = false ∧
    PyErr.isFlexitError .jsonDecodeError = false :=
  C3_amended_decode_failure_unclassified (initClient "u" "p" "k" true 0) 200
    (some "application/json") "not json" (by decide) (by decide)

/-- CLAIM C5 counterexample: 304 is a non-2xx status, yet a 304 response
declaring `application/json` with a decodable body is returned as data by
the dispatcher rather than being raised as a connection error
(`raise_for_status` only raises for status >= 400). -/
theorem C5_counterexample :
    (304 < 200 ∨ 299 < 304) ∧
    (generic_request (initClient "u" "p" "k" true 0)
        (.response 304 (some "application/json") "\x7b\x7d" (some (.jobj [])))).2
      = .ok (.jobj []) :=
  ⟨Or.inr (by decide), rfl⟩

/-- CLAIM C5 amended: timeout expiry surfaces as the "timeout" connection
error; transport-level failures (DNS failure, connection refusal,
protocol-level client errors) surface as the "communication" connection
error; a response status of 400 or above is detected by `raise_for_status`
and also surfaces as the "communication" connection error. (Statuses in
300-399 are not raised and proceed to content-type validation.) -/
theorem C5_amended_transport_error_classification (st : ClientState)
    (status : Nat) (ct : Option String) (body : String) (decoded : Option JVal)
    (h : 400 ≤ status) :
    (generic_request st .timeout).2
      = .error (.flexitConnectionError
          "Timeout occurred while connecting to Flexit device") ∧
    (generic_request st .clientError).2
      = .error (.flexitConnectionError
          "Error occurred while communicating with Flexit device") ∧
    (generic_request st (.response status ct body decoded)).2
      = .error (.flexitConnectionError
          "Error occurred while communicating with Flexit device") := by
  refine ⟨rfl, rfl, ?_⟩
  simp [generic_request, classify_outcome, h]

/-- Witness for the amended C5: a concrete 404 response (even with a
decodable JSON body) is raised as the communication connection error. -/
theorem C5_amended_transport_error_classification_witness :
    (generic_request (initClient "u" "p" "k" true 0) .timeout).2
      = .error (.flexitConnectionError
          "Timeout occurred while connecting to Flexit device") ∧
    (generic_request (initClient "u" "p" "k" true 0) .clientError).2
      = .error (.flexitConnectionError
          "Error occurred while communicating with Flexit device") ∧
    (generic_request (initClient "u" "p" "k" true 0)
        (.response 404 (some "application/json") "" (some (.jobj [])))).2
      = .error (.flexitConnectionError
          "Error occurred while communicating with Flexit device") :=
  C5_amended_transport_error_classification (initClient "u" "p" "k" true 0) 404
    (some "application/json") "" (some (.jobj [])) (by decide)

end Flexit
